import Mathlib

/-!
Shallow embedding of the ngfg field-configuration service layer
(`src/app/services/field.py`) and the spreadsheet flattening helper
(`src/app/helper/sheet_manager.py`), together with proofs about the
behaviour of its create/update/serialize operations.

The relational store is modelled as an explicit `DBState` record of row
lists.  The auxiliary store services (`ChoiceOptionService`,
`RangeService`, `FieldRangeService`, `SettingAutocompleteService`) are not
part of the two source files; they are modelled from the spec (section
4.2): each CRUD call returns the instance or `none` on failure/not-found.
Store-level faults (constraint violations that make a `create`/`delete`
call yield `none`) are injected through an `Env` record of failure flags,
so that theorems can quantify over every possible store outcome.

Python runtime crashes that the service code does not guard against are
modelled by the dedicated error values `Err.attributeError` (attribute
access on `None`, e.g. `radio_option.id` when the lookup returned `None`)
and `Err.typeError` (`dict.update(None)`).  These are distinct from the
domain errors raised deliberately by the engine.
-/

/-- One row of the `Field` table: id, name, owner, type tag, strictness. -/
structure FieldRow where
  id : Nat
  name : String
  owner_id : Nat
  field_type : Nat
  is_strict : Bool
deriving DecidableEq, Repr

/-- One row of the `Range` table: an (optional min, optional max) pair. -/
structure RangeRow where
  id : Nat
  min : Option Int
  max : Option Int
deriving DecidableEq, Repr

/-- One row of the Field-Range join table. -/
structure FieldRangeRow where
  field_id : Nat
  range_id : Nat
deriving DecidableEq, Repr

/-- One row of the `ChoiceOption` table. -/
structure ChoiceOptionRow where
  id : Nat
  field_id : Nat
  option_text : String
deriving DecidableEq, Repr

/-- One row of the `SettingAutocomplete` table. -/
structure SettingRow where
  id : Nat
  field_id : Nat
  data_url : String
  sheet : String
  from_row : String
  to_row : String
deriving DecidableEq, Repr

/-- The relational store state: one list of rows per table, plus a fresh-id
counter shared by all tables. -/
structure DBState where
  fields : List FieldRow
  ranges : List RangeRow
  field_ranges : List FieldRangeRow
  choice_options : List ChoiceOptionRow
  settings : List SettingRow
  next_id : Nat
deriving DecidableEq, Repr

/-- Modelled from the spec: store-level fault injection.  Per spec section
4.2 every store `create`/`delete` may return `none` (constraint violation
or not-found); each flag makes the corresponding store call report
failure, letting theorems quantify over all store outcomes. -/
structure Env where
  field_create_fails : Bool := false
  option_create_fails : Bool := false
  option_delete_fails : Bool := false
  field_range_delete_fails : Bool := false
  setting_create_fails : Bool := false
deriving DecidableEq, Repr

/-- Domain errors raised by the engine (`app/helper/errors.py` names),
plus `attributeError`/`typeError`, which model unguarded Python runtime
crashes (`None` attribute access, `dict.update(None)`). -/
inductive Err where
  | fieldNotExist
  | fieldAlreadyExist
  | choiceNotSend
  | choiceOptionNotCreated
  | choiceOptionNotDeleted
  | settingAutocompleteNotExist
  | fieldRangeNotDeleted
  | attributeError
  | typeError
deriving DecidableEq, Repr

/- Modelled from the spec: the `FieldType` enum (`app/helper/enums.py` is
not under src/).  Only the distinctness of the six tags matters. -/
namespace FieldType

def Text : Nat := 1

def Number : Nat := 2

def TextArea : Nat := 3

def Radio : Nat := 4

def Checkbox : Nat := 5

def Autocomplete : Nat := 6

end FieldType

/-- The `range` sub-object of a serialized field view. -/
structure RangeView where
  min : Option Int
  max : Option Int
deriving DecidableEq, Repr

/-- The `settingAutocomplete` sub-object of a serialized field view. -/
structure SettingView where
  dataUrl : String
  sheet : String
  fromRow : String
  toRow : String
deriving DecidableEq, Repr

/-- A serialized field view: the base JSON keys plus the optional
variant-specific keys (`isStrict`, `range`, `choiceOptions`,
`settingAutocomplete`).  `none` models the key being absent. -/
structure ViewData where
  id : Nat
  name : String
  owner_id : Nat
  field_type : Nat
  isStrict : Option Bool := none
  range : Option RangeView := none
  choiceOptions : Option (List String) := none
  settingAutocomplete : Option SettingView := none
deriving DecidableEq, Repr

/-- The mapping returned by `get_additional_options`: any subset of the
four auxiliary keys. -/
structure AddOpts where
  isStrict : Option Bool := none
  range : Option RangeView := none
  choiceOptions : Option (List String) := none
  settingAutocomplete : Option SettingView := none
deriving DecidableEq, Repr

/-- Python `data.update(m)` on the view dictionaries: keys present in `m`
overwrite those of `data`, absent keys are kept. -/
def dict_update (d : ViewData) (m : AddOpts) : ViewData :=
  { d with
    isStrict := match m.isStrict with
      | some v => some v
      | none => d.isStrict,
    range := match m.range with
      | some v => some v
      | none => d.range,
    choiceOptions := match m.choiceOptions with
      | some v => some v
      | none => d.choiceOptions,
    settingAutocomplete := match m.settingAutocomplete with
      | some v => some v
      | none => d.settingAutocomplete }

/-- Modelled from the spec: the marshmallow schema dumps (`app/schemas` is
not under src/) serialize the base Field attributes; variant keys are
added by the service code afterwards. -/
def base_dump (f : FieldRow) : ViewData :=
  { id := f.id, name := f.name, owner_id := f.owner_id,
    field_type := f.field_type }

/-- Modelled from the spec: `FieldRadioSchema`/`FieldCheckboxSchema` dump a
freshly created field with an empty `choiceOptions` list (the field has no
option rows at dump time). -/
def radio_dump (f : FieldRow) : ViewData :=
  { base_dump f with choiceOptions := some [] }

namespace FieldService

/-- `FieldService.create` (field.py lines 41-58) builds the row and adds it
to the session.  The decorating unit of work (modelled from the spec,
section 6) converts a commit-time constraint violation into a `None`
return, injected here through `env.field_create_fails`. -/
def create (env : Env) (name : String) (owner_id : Nat) (field_type : Nat)
    (is_strict : Bool) (s : DBState) : Option FieldRow × DBState :=
  if env.field_create_fails then (none, s)
  else
    let inst : FieldRow :=
      { id := s.next_id, name := name, owner_id := owner_id,
        field_type := field_type, is_strict := is_strict }
    (some inst, { s with fields := s.fields ++ [inst], next_id := s.next_id + 1 })

/-- `FieldService.get_by_id` (field.py lines 60-69). -/
def get_by_id (field_id : Nat) (s : DBState) : Option FieldRow :=
  s.fields.find? (fun f => f.id == field_id)

/-- `FieldService.update` (field.py lines 103-134): looks the row up,
raises `FieldNotExist` when absent, otherwise overwrites exactly the
attributes that were supplied (`none` models an absent keyword). -/
def update (field_id : Nat) (name : Option String) (owner_id : Option Nat)
    (field_type : Option Nat) (is_strict : Option Bool) (s : DBState) :
    Except Err (FieldRow × DBState) :=
  match get_by_id field_id s with
  | none => .error .fieldNotExist
  | some inst =>
    let inst1 : FieldRow :=
      { inst with
        name := name.getD inst.name,
        owner_id := owner_id.getD inst.owner_id,
        field_type := field_type.getD inst.field_type,
        is_strict := is_strict.getD inst.is_strict }
    .ok (inst1,
      { s with fields := s.fields.map (fun f => if f.id == field_id then inst1 else f) })

end FieldService

namespace ChoiceOptionService

/-- Modelled from the spec (section 4.2): option create returns the new
instance, or `none` on a store fault. -/
def create (env : Env) (field_id : Nat) (option_text : String) (s : DBState) :
    Option ChoiceOptionRow × DBState :=
  if env.option_create_fails then (none, s)
  else
    let row : ChoiceOptionRow :=
      { id := s.next_id, field_id := field_id, option_text := option_text }
    (some row,
      { s with choice_options := s.choice_options ++ [row], next_id := s.next_id + 1 })

/-- Modelled from the spec (section 4.2): lookup by (field_id, option_text),
`none` when not found. -/
def get_by_field_and_text (field_id : Nat) (option_text : String) (s : DBState) :
    Option ChoiceOptionRow :=
  s.choice_options.find? (fun o => o.field_id == field_id && o.option_text == option_text)

/-- Modelled from the spec (section 4.2): delete by id returns a success
marker, or `none` on not-found or a store fault. -/
def delete (env : Env) (option_id : Nat) (s : DBState) : Option Bool × DBState :=
  if env.option_delete_fails then (none, s)
  else
    match s.choice_options.find? (fun o => o.id == option_id) with
    | none => (none, s)
    | some _ =>
      (some true,
        { s with choice_options := s.choice_options.filter (fun o => !(o.id == option_id)) })

/-- Modelled from the spec (section 4.2): all option rows of a field. -/
def filter (field_id : Nat) (s : DBState) : List ChoiceOptionRow :=
  s.choice_options.filter (fun o => o.field_id == field_id)

end ChoiceOptionService

namespace RangeService

/-- Modelled from the spec (section 3): a brand-new Range row is created on
every call, never reused. -/
def create (range_min range_max : Option Int) (s : DBState) : RangeRow × DBState :=
  let row : RangeRow := { id := s.next_id, min := range_min, max := range_max }
  (row, { s with ranges := s.ranges ++ [row], next_id := s.next_id + 1 })

/-- Modelled from the spec (section 4.2): Range lookup by id. -/
def get_by_id (range_id : Nat) (s : DBState) : Option RangeRow :=
  s.ranges.find? (fun r => r.id == range_id)

end RangeService

namespace FieldRangeService

/-- Modelled from the spec (section 3): at most one link row per field;
lookup by field id. -/
def get_by_field_id (field_id : Nat) (s : DBState) : Option FieldRangeRow :=
  s.field_ranges.find? (fun r => r.field_id == field_id)

/-- Modelled from the spec (section 4.2): create the link row. -/
def create (field_id : Nat) (range_id : Nat) (s : DBState) :
    Option FieldRangeRow × DBState :=
  let row : FieldRangeRow := { field_id := field_id, range_id := range_id }
  (some row, { s with field_ranges := s.field_ranges ++ [row] })

/-- Modelled from the spec (section 4.2): repoint the existing link at a
new range id; `none` when the field has no link. -/
def update (field_id : Nat) (range_id : Nat) (s : DBState) :
    Option FieldRangeRow × DBState :=
  match get_by_field_id field_id s with
  | none => (none, s)
  | some _ =>
    let row : FieldRangeRow := { field_id := field_id, range_id := range_id }
    (some row,
      { s with field_ranges :=
          s.field_ranges.map (fun r => if r.field_id == field_id then row else r) })

/-- Modelled from the spec (section 4.2): delete the link row, `none` on
not-found or a store fault. -/
def delete (env : Env) (field_id : Nat) (s : DBState) : Option Bool × DBState :=
  if env.field_range_delete_fails then (none, s)
  else
    match get_by_field_id field_id s with
    | none => (none, s)
    | some _ =>
      (some true,
        { s with field_ranges := s.field_ranges.filter (fun r => !(r.field_id == field_id)) })

end FieldRangeService

namespace SettingAutocompleteService

/-- Modelled from the spec (section 4.2): create the settings row, or
`none` on a store fault. -/
def create (env : Env) (data_url sheet from_row to_row : String) (field_id : Nat)
    (s : DBState) : Option SettingRow × DBState :=
  if env.setting_create_fails then (none, s)
  else
    let row : SettingRow :=
      { id := s.next_id, field_id := field_id, data_url := data_url,
        sheet := sheet, from_row := from_row, to_row := to_row }
    (some row, { s with settings := s.settings ++ [row], next_id := s.next_id + 1 })

/-- Modelled from the spec (section 4.2): settings lookup by field id. -/
def get_by_field_id (field_id : Nat) (s : DBState) : Option SettingRow :=
  s.settings.find? (fun r => r.field_id == field_id)

end SettingAutocompleteService

/-- Modelled from the spec (section 6): the `transaction_decorator` unit of
work wrapping every mutating engine entry point — commit the body's state
on success, roll the state back to the entry state on error. -/
def transaction {α : Type} (body : DBState → Except Err (α × DBState))
    (s : DBState) : Except Err α × DBState :=
  match body s with
  | .ok (r, s1) => (.ok r, s1)
  | .error e => (.error e, s)

/-- The shared create-loop of `create_radio_field` / `create_checkbox_field`
(field.py lines 345-347 and 393-395): append each option text to the view's
list and create its row; the store result of each create is ignored. -/
def append_options_loop (env : Env) (field_id : Nat) :
    List String → List String → DBState → List String × DBState
  | [], acc, s => (acc, s)
  | o :: rest, acc, s =>
    let r := ChoiceOptionService.create env field_id o s
    append_options_loop env field_id rest (acc ++ [o]) r.2

/-- Body of `create_text_or_number_field` (field.py lines 242-287). -/
def create_text_or_number_field_body (env : Env) (name : String) (owner_id : Nat)
    (field_type : Nat) (is_strict : Bool) (range_min range_max : Option Int)
    (s : DBState) : Except Err (ViewData × DBState) :=
  match FieldService.create env name owner_id field_type is_strict s with
  | (none, _) => .error .fieldAlreadyExist
  | (some field, s1) =>
    let data := base_dump field
    let data := if is_strict then { data with isStrict := some is_strict } else data
    if range_min ≠ none ∨ range_max ≠ none then
      let r1 := RangeService.create range_min range_max s1
      let r2 := FieldRangeService.create field.id r1.1.id r1.2
      .ok ({ data with range := some { min := range_min, max := range_max } }, r2.2)
    else
      .ok (data, s1)

/-- `create_text_or_number_field`, transaction-decorated. -/
def create_text_or_number_field (env : Env) (name : String) (owner_id : Nat)
    (field_type : Nat) (is_strict : Bool) (range_min range_max : Option Int)
    (s : DBState) : Except Err ViewData × DBState :=
  transaction
    (create_text_or_number_field_body env name owner_id field_type is_strict
      range_min range_max) s

/-- Body of `create_text_area` (field.py lines 289-308). -/
def create_text_area_body (env : Env) (name : String) (owner_id : Nat)
    (field_type : Nat) (s : DBState) : Except Err (ViewData × DBState) :=
  match FieldService.create env name owner_id field_type false s with
  | (none, _) => .error .fieldAlreadyExist
  | (some field, s1) => .ok (base_dump field, s1)

/-- `create_text_area`, transaction-decorated. -/
def create_text_area (env : Env) (name : String) (owner_id : Nat)
    (field_type : Nat) (s : DBState) : Except Err ViewData × DBState :=
  transaction (create_text_area_body env name owner_id field_type) s

/-- Body of `create_radio_field` (field.py lines 310-348): empty options are
rejected with `ChoiceNotSend` before any write; a `none` base field raises
`FieldAlreadyExist`. -/
def create_radio_field_body (env : Env) (name : String) (owner_id : Nat)
    (field_type : Nat) (choice_options : List String) (is_strict : Bool)
    (s : DBState) : Except Err (ViewData × DBState) :=
  if choice_options = [] then .error .choiceNotSend
  else
    match FieldService.create env name owner_id field_type is_strict s with
    | (none, _) => .error .fieldAlreadyExist
    | (some field, s1) =>
      let data := { radio_dump field with choiceOptions := some [] }
      let r := append_options_loop env field.id choice_options [] s1
      .ok ({ data with choiceOptions := some r.1 }, r.2)

/-- `create_radio_field`, transaction-decorated. -/
def create_radio_field (env : Env) (name : String) (owner_id : Nat)
    (field_type : Nat) (choice_options : List String) (is_strict : Bool)
    (s : DBState) : Except Err ViewData × DBState :=
  transaction
    (create_radio_field_body env name owner_id field_type choice_options is_strict) s

/-- Body of `create_checkbox_field` (field.py lines 350-396).  Unlike the
other variants, the source has no `field is None` guard after the base
create: with a `none` field it dereferences `field.id` / dumps `None`, a
Python crash modelled by `attributeError` (the enclosing transaction rolls
back either way). -/
def create_checkbox_field_body (env : Env) (name : String) (owner_id : Nat)
    (field_type : Nat) (choice_options : List String) (is_strict : Bool)
    (range_min range_max : Option Int) (s : DBState) :
    Except Err (ViewData × DBState) :=
  if choice_options = [] then .error .choiceNotSend
  else
    match FieldService.create env name owner_id field_type is_strict s with
    | (none, _) => .error .attributeError
    | (some field, s1) =>
      let data := radio_dump field
      let step :=
        if range_min ≠ none ∨ range_max ≠ none then
          let r1 := RangeService.create range_min range_max s1
          let r2 := FieldRangeService.create field.id r1.1.id r1.2
          ({ data with range := some { min := range_min, max := range_max } }, r2.2)
        else (data, s1)
      let r := append_options_loop env field.id choice_options
        (step.1.choiceOptions.getD []) step.2
      .ok ({ step.1 with choiceOptions := some r.1 }, r.2)

/-- `create_checkbox_field`, transaction-decorated. -/
def create_checkbox_field (env : Env) (name : String) (owner_id : Nat)
    (field_type : Nat) (choice_options : List String) (is_strict : Bool)
    (range_min range_max : Option Int) (s : DBState) :
    Except Err ViewData × DBState :=
  transaction
    (create_checkbox_field_body env name owner_id field_type choice_options
      is_strict range_min range_max) s

/-- Body of `create_autocomplete_field` (field.py lines 398-452).  Note the
source raises `FieldNotExist` — not `FieldAlreadyExist` — when the base
create returns no instance (line 431). -/
def create_autocomplete_field_body (env : Env) (name : String) (owner_id : Nat)
    (field_type : Nat) (data_url sheet from_row to_row : String)
    (is_strict : Bool) (s : DBState) : Except Err (ViewData × DBState) :=
  match FieldService.create env name owner_id field_type is_strict s with
  | (none, _) => .error .fieldNotExist
  | (some field, s1) =>
    let data := base_dump field
    match SettingAutocompleteService.create env data_url sheet from_row to_row
        field.id s1 with
    | (none, _) => .error .settingAutocompleteNotExist
    | (some st, s2) =>
      let sview : SettingView :=
        { dataUrl := st.data_url, sheet := st.sheet,
          fromRow := st.from_row, toRow := st.to_row }
      .ok ({ data with settingAutocomplete := some sview }, s2)

/-- `create_autocomplete_field`, transaction-decorated. -/
def create_autocomplete_field (env : Env) (name : String) (owner_id : Nat)
    (field_type : Nat) (data_url sheet from_row to_row : String)
    (is_strict : Bool) (s : DBState) : Except Err ViewData × DBState :=
  transaction
    (create_autocomplete_field_body env name owner_id field_type data_url sheet
      from_row to_row is_strict) s

/-- `_get_text_or_number_additional_options` (field.py lines 454-480).  The
source calls `field.is_strict` without a `None` guard; a missing field is a
Python crash, modelled by `attributeError`. -/
def get_text_or_number_additional_options (field_id : Nat) (s : DBState) :
    Except Err AddOpts :=
  let range_field := FieldRangeService.get_by_field_id field_id s
  match FieldService.get_by_id field_id s with
  | none => .error .attributeError
  | some field =>
    let data : AddOpts := {}
    let data := if field.is_strict then { data with isStrict := some true } else data
    match range_field with
    | none => .ok data
    | some rf =>
      match RangeService.get_by_id rf.range_id s with
      | none => .ok data
      | some fr => .ok { data with range := some { min := fr.min, max := fr.max } }

/-- `_get_choice_additional_options` (field.py lines 482-513): raises
`FieldNotExist` when the field has no option rows. -/
def get_choice_additional_options (field_id : Nat) (s : DBState) :
    Except Err AddOpts :=
  let choice_options := ChoiceOptionService.filter field_id s
  let range_field := FieldRangeService.get_by_field_id field_id s
  if choice_options = [] then .error .fieldNotExist
  else
    let data : AddOpts :=
      { choiceOptions := some (choice_options.map (fun o => o.option_text)) }
    match range_field with
    | none => .ok data
    | some rf =>
      match RangeService.get_by_id rf.range_id s with
      | none => .ok data
      | some fr => .ok { data with range := some { min := fr.min, max := fr.max } }

/-- `_get_autocomplete_additional_options` (field.py lines 515-536). -/
def get_autocomplete_additional_options (field_id : Nat) (s : DBState) :
    Except Err AddOpts :=
  match SettingAutocompleteService.get_by_field_id field_id s with
  | none => .error .settingAutocompleteNotExist
  | some st =>
    .ok { settingAutocomplete :=
      some { dataUrl := st.data_url, sheet := st.sheet,
             fromRow := st.from_row, toRow := st.to_row } }

/-- The `try/except FieldNotExist` of `get_additional_options` (field.py
lines 551-566): an internal `FieldNotExist` is caught and converted to a
`none` result; every other outcome passes through. -/
def catch_field_not_exist (r : Except Err (Option AddOpts)) :
    Except Err (Option AddOpts) :=
  match r with
  | .error .fieldNotExist => .ok none
  | r => r

/-- `get_additional_options` (field.py lines 538-567): dispatch on the
field-type tag; `data` stays `None` for an unrecognized tag. -/
def get_additional_options (field_id : Nat) (field_type : Nat) (s : DBState) :
    Except Err (Option AddOpts) :=
  catch_field_not_exist
    (if field_type = FieldType.Number ∨ field_type = FieldType.Text then
      (get_text_or_number_additional_options field_id s).map some
    else if field_type = FieldType.TextArea then
      .ok (some {})
    else if field_type = FieldType.Radio ∨ field_type = FieldType.Checkbox then
      (get_choice_additional_options field_id s).map some
    else if field_type = FieldType.Autocomplete then
      (get_autocomplete_additional_options field_id s).map some
    else
      .ok none)

/-- The range branch shared by `update_text_or_number_field` (field.py
lines 613-625) and `update_checkbox_field` (lines 749-770): on
`delete_range` the link must exist and its deletion must succeed, else
`FieldRangeNotDeleted`; otherwise supplied bounds create a fresh Range and
update-or-create the link, and no bounds means no range action. -/
def update_range_branch (env : Env) (field_id : Nat)
    (range_min range_max : Option Int) (delete_range : Bool)
    (field_range : Option FieldRangeRow) (s : DBState) : Except Err DBState :=
  if delete_range then
    match field_range with
    | none => .error .fieldRangeNotDeleted
    | some _ =>
      match FieldRangeService.delete env field_id s with
      | (none, _) => .error .fieldRangeNotDeleted
      | (some _, s1) => .ok s1
  else
    if range_min ≠ none ∨ range_max ≠ none then
      let r1 := RangeService.create range_min range_max s
      match field_range with
      | some _ => .ok (FieldRangeService.update field_id r1.1.id r1.2).2
      | none => .ok (FieldRangeService.create field_id r1.1.id r1.2).2
    else .ok s

/-- The merge `data.update(get_additional_options(...))` ending every
update operation (field.py lines 626-629, 672-675, 791-794): a `None`
result makes `dict.update` crash with a Python `TypeError`; the source has
no guard. -/
def merge_additional_options (data : ViewData) (field_id field_type : Nat)
    (s : DBState) : Except Err (ViewData × DBState) :=
  match get_additional_options field_id field_type s with
  | .error e => .error e
  | .ok none => .error .typeError
  | .ok (some m) => .ok (dict_update data m, s)

/-- Body of `update_text_or_number_field` (field.py lines 583-630). -/
def update_text_or_number_field_body (env : Env) (field_id : Nat)
    (name : Option String) (range_min range_max : Option Int)
    (delete_range : Bool) (is_strict : Option Bool) (s : DBState) :
    Except Err (ViewData × DBState) :=
  match FieldService.update field_id name none none is_strict s with
  | .error e => .error e
  | .ok (field, s1) =>
    let data := base_dump field
    let field_range := FieldRangeService.get_by_field_id field_id s1
    match update_range_branch env field.id range_min range_max delete_range
        field_range s1 with
    | .error e => .error e
    | .ok s2 => merge_additional_options data field.id field.field_type s2

/-- `update_text_or_number_field`, transaction-decorated. -/
def update_text_or_number_field (env : Env) (field_id : Nat)
    (name : Option String) (range_min range_max : Option Int)
    (delete_range : Bool) (is_strict : Option Bool) (s : DBState) :
    Except Err ViewData × DBState :=
  transaction
    (update_text_or_number_field_body env field_id name range_min range_max
      delete_range is_strict) s

/-- The add-options loop shared by `update_radio_field` (field.py lines
654-661) and `update_checkbox_field` (lines 772-779): a `none` create
raises `ChoiceOptionNotCreated`. -/
def add_options_loop (env : Env) (field_id : Nat) :
    List String → DBState → Except Err DBState
  | [], s => .ok s
  | o :: rest, s =>
    match ChoiceOptionService.create env field_id o s with
    | (none, _) => .error .choiceOptionNotCreated
    | (some _, s1) => add_options_loop env field_id rest s1

/-- The remove-options loop shared by `update_radio_field` (field.py lines
663-671) and `update_checkbox_field` (lines 780-790): the source
dereferences the lookup result (`radio_option.id`) without a `None` guard
— a failed lookup is a Python crash, modelled by `attributeError` — and
raises `ChoiceOptionNotDeleted` only when the delete call returns `None`. -/
def remove_options_loop (env : Env) (field_id : Nat) :
    List String → DBState → Except Err DBState
  | [], s => .ok s
  | o :: rest, s =>
    match ChoiceOptionService.get_by_field_and_text field_id o s with
    | none => .error .attributeError
    | some opt =>
      match ChoiceOptionService.delete env opt.id s with
      | (none, _) => .error .choiceOptionNotDeleted
      | (some _, s1) => remove_options_loop env field_id rest s1

/-- Body of `update_radio_field` (field.py lines 632-676).  The absent
(`None`) defaults of the option-list parameters behave like empty lists. -/
def update_radio_field_body (env : Env) (field_id : Nat) (name : Option String)
    (added_choice_options removed_choice_options : List String) (s : DBState) :
    Except Err (ViewData × DBState) :=
  match FieldService.update field_id name none none none s with
  | .error e => .error e
  | .ok (field, s1) =>
    let data := radio_dump field
    match add_options_loop env field.id added_choice_options s1 with
    | .error e => .error e
    | .ok s2 =>
      match remove_options_loop env field.id removed_choice_options s2 with
      | .error e => .error e
      | .ok s3 => merge_additional_options data field.id field.field_type s3

/-- `update_radio_field`, transaction-decorated. -/
def update_radio_field (env : Env) (field_id : Nat) (name : Option String)
    (added_choice_options removed_choice_options : List String) (s : DBState) :
    Except Err ViewData × DBState :=
  transaction
    (update_radio_field_body env field_id name added_choice_options
      removed_choice_options) s

/-- Body of `update_checkbox_field` (field.py lines 720-795): base update,
then the range branch, then the add-options and remove-options loops, then
the additional-options merge. -/
def update_checkbox_field_body (env : Env) (field_id : Nat)
    (name : Option String) (range_max range_min : Option Int)
    (delete_range : Bool)
    (added_choice_options removed_choice_options : List String) (s : DBState) :
    Except Err (ViewData × DBState) :=
  match FieldService.update field_id name none none none s with
  | .error e => .error e
  | .ok (field, s1) =>
    let data := radio_dump field
    let field_range := FieldRangeService.get_by_field_id field.id s1
    match update_range_branch env field.id range_min range_max delete_range
        field_range s1 with
    | .error e => .error e
    | .ok s2 =>
      match add_options_loop env field.id added_choice_options s2 with
      | .error e => .error e
      | .ok s3 =>
        match remove_options_loop env field.id removed_choice_options s3 with
        | .error e => .error e
        | .ok s4 => merge_additional_options data field.id field.field_type s4

/-- `update_checkbox_field`, transaction-decorated. -/
def update_checkbox_field (env : Env) (field_id : Nat) (name : Option String)
    (range_max range_min : Option Int) (delete_range : Bool)
    (added_choice_options removed_choice_options : List String) (s : DBState) :
    Except Err ViewData × DBState :=
  transaction
    (update_checkbox_field_body env field_id name range_max range_min
      delete_range added_choice_options removed_choice_options) s

/-- A finitely nested list value: either a plain item or a list of nested
values — the shape `SheetManager.lists_to_list` consumes. -/
inductive Nested (α : Type) where
  | item : α → Nested α
  | list : List (Nested α) → Nested α
deriving Repr

/-- `SheetManager.lists_to_list` (sheet_manager.py lines 142-159): walk the
input, recursing into list items and appending non-list items to the
shared accumulator (`values`, defaulting to the empty list). -/
def lists_to_list {α : Type} : List (Nested α) → List α → List α
  | [], values => values
  | .item a :: rest, values => lists_to_list rest (values ++ [a])
  | .list l :: rest, values => lists_to_list rest (lists_to_list l values)

/-- Reference depth-first, left-to-right flattening of a nested list. -/
def flatten {α : Type} : List (Nested α) → List α
  | [] => []
  | .item a :: rest => a :: flatten rest
  | .list l :: rest => flatten l ++ flatten rest

/-! Concrete fixtures used by witnesses and counterexamples. -/

/-- The default environment: every store call succeeds. -/
def envOk : Env := {}

/-- An environment whose base Field create reports a constraint fault. -/
def envCreateFail : Env := { field_create_fails := true }

/-- An empty store. -/
def emptyState : DBState :=
  { fields := [], ranges := [], field_ranges := [], choice_options := [],
    settings := [], next_id := 1 }

/-- A Text-typed field row with id 1. -/
def textRow : FieldRow :=
  { id := 1, name := "n", owner_id := 1, field_type := FieldType.Text,
    is_strict := false }

/-- A store holding only `textRow`, with no range link. -/
def textState : DBState :=
  { emptyState with fields := [textRow], next_id := 2 }

/-- A Radio-typed field row with id 1. -/
def radioRow : FieldRow :=
  { id := 1, name := "n", owner_id := 1, field_type := FieldType.Radio,
    is_strict := false }

/-- A store holding only `radioRow`, with no option rows. -/
def radioState : DBState :=
  { emptyState with fields := [radioRow], next_id := 2 }

/-- A Checkbox-typed field row with id 1. -/
def checkboxRow : FieldRow :=
  { id := 1, name := "n", owner_id := 1, field_type := FieldType.Checkbox,
    is_strict := false }

/-- The single option row "a" of `checkboxRow`. -/
def checkboxOptionRow : ChoiceOptionRow :=
  { id := 2, field_id := 1, option_text := "a" }

/-- A store holding `checkboxRow` and its single option "a". -/
def checkboxState : DBState :=
  { emptyState with
    fields := [checkboxRow]
    choice_options := [checkboxOptionRow]
    next_id := 3 }

/-! Helper lemmas. -/

/-- The try/except wrapper can never let `FieldNotExist` escape. -/
theorem catch_field_not_exist_ne (r : Except Err (Option AddOpts)) :
    catch_field_not_exist r ≠ .error .fieldNotExist := by
  cases r with
  | ok v => simp [catch_field_not_exist]
  | error e => cases e <;> simp [catch_field_not_exist]

/-- The create-loop returns the accumulator extended with every supplied
option, in input order, whatever the store does. -/
theorem append_options_loop_fst (env : Env) (field_id : Nat) :
    ∀ (opts acc : List String) (s : DBState),
      (append_options_loop env field_id opts acc s).1 = acc ++ opts := by
  intro opts
  induction opts with
  | nil => intro acc s; simp [append_options_loop]
  | cons o rest ih => intro acc s; simp [append_options_loop, ih]

/-- Claim C2: creating a radio or checkbox field with an empty (or absent)
choice-options list fails with `ChoiceNotSend` before any write: the
returned store is exactly the input store, so no Field row nor any
auxiliary row is created. -/
theorem claim_c2_empty_options_rejected (env : Env) (name : String)
    (owner_id field_type : Nat) (is_strict : Bool)
    (range_min range_max : Option Int) (s : DBState) :
    create_radio_field env name owner_id field_type [] is_strict s =
      (.error .choiceNotSend, s) ∧
    create_checkbox_field env name owner_id field_type [] is_strict
      range_min range_max s = (.error .choiceNotSend, s) := by
  constructor <;> rfl

/-- Claim C10: for a field-type tag outside the six recognized variants,
`get_additional_options` returns `none` without raising; the result is the
same for every store state, so no auxiliary store is consulted. -/
theorem claim_c10_unknown_type_returns_none (field_id field_type : Nat)
    (s : DBState)
    (h : field_type ∉ [FieldType.Text, FieldType.Number, FieldType.TextArea,
      FieldType.Radio, FieldType.Checkbox, FieldType.Autocomplete]) :
    get_additional_options field_id field_type s = .ok none := by
  simp only [List.mem_cons, List.mem_singleton, not_or] at h
  obtain ⟨h1, h2, h3, h4, h5, h6⟩ := h
  simp [get_additional_options, catch_field_not_exist, h1, h2, h3, h4, h5, h6]

/-- Witness for claim C10 at the concrete tag 99 on the empty store. -/
theorem claim_c10_witness : get_additional_options 0 99 emptyState = .ok none :=
  claim_c10_unknown_type_returns_none 0 99 emptyState (by decide)

/-- Claim C4: `get_additional_options` never propagates an internal
`FieldNotExist`; in particular, for a Radio/Checkbox-typed call on a field
with zero ChoiceOption rows the internally raised `FieldNotExist` is
caught and the call returns `none` instead of raising. -/
theorem claim_c4_field_not_exist_contained (field_id field_type : Nat)
    (s : DBState) :
    get_additional_options field_id field_type s ≠ .error .fieldNotExist ∧
    ((field_type = FieldType.Radio ∨ field_type = FieldType.Checkbox) →
      ChoiceOptionService.filter field_id s = [] →
      get_additional_options field_id field_type s = .ok none) := by
  constructor
  · exact catch_field_not_exist_ne _
  · intro hty hfilter
    rcases hty with h | h <;> subst h <;>
      simp [get_additional_options, catch_field_not_exist,
        get_choice_additional_options, hfilter, Except.map, FieldType.Radio,
        FieldType.Checkbox, FieldType.Number, FieldType.Text,
        FieldType.TextArea]

/-- Witness for claim C4: a Radio field with no option rows yields `none`. -/
theorem claim_c4_witness :
    get_additional_options 1 FieldType.Radio radioState = .ok none :=
  (claim_c4_field_not_exist_contained 1 FieldType.Radio radioState).2
    (Or.inl rfl) rfl

/-- Accumulator lemma for the flattening helper: the Python in-place
accumulator corresponds to prepending the already-collected values. -/
theorem lists_to_list_append {α : Type} (data : List (Nested α)) (values : List α) :
    lists_to_list data values = values ++ flatten data := by
  induction data, values using lists_to_list.induct with
  | case1 values => simp [lists_to_list, flatten]
  | case2 a rest values ih => simp [lists_to_list, flatten, ih]
  | case3 l rest values ih1 ih2 =>
    rw [ih1] at ih2
    simp [lists_to_list, flatten, ih1, ih2, List.append_assoc]

/-- Claim C9: for every finitely nested list of non-list items,
`SheetManager.lists_to_list` (called with its default empty accumulator)
returns the depth-first, left-to-right flattening of the input, i.e. it
agrees with the reference recursive `flatten`. -/
theorem claim_c9_lists_to_list_flattens (α : Type) (data : List (Nested α)) :
    lists_to_list data [] = flatten data := by
  simpa using lists_to_list_append data []

/-- Claim C8: the result merge of `update_checkbox_field` and
`update_text_or_number_field` is not guarded against
`get_additional_options` returning `none`: removing every option of a
checkbox field (and likewise calling the text-or-number update on a
radio-typed field with zero options) makes the merge fail against a
non-mapping value — modelled as the Python `TypeError` of
`dict.update(None)` — rather than raise a domain error or default to an
empty mapping. -/
theorem claim_c8_unguarded_merge :
    update_checkbox_field envOk 1 none none none false [] ["a"] checkboxState =
      (.error .typeError, checkboxState) ∧
    update_text_or_number_field envOk 1 none none none false none radioState =
      (.error .typeError, radioState) := by
  constructor <;> rfl

/-- Claim C1 (amended): when the base Field creation step yields no
instance, the text-or-number, textarea and radio create variants fail with
`FieldAlreadyExist`; the autocomplete variant instead fails with
`FieldNotExist` (field.py line 431), and the checkbox variant has no
`None` guard at all and fails with an unguarded `None` dereference,
modelled as `attributeError`.  In every variant the store is rolled back
to the input state. -/
theorem claim_c1_create_failure_error_kinds (env : Env) (name : String)
    (owner_id field_type : Nat) (is_strict : Bool)
    (range_min range_max : Option Int) (o : String) (rest : List String)
    (data_url sheet from_row to_row : String) (s : DBState)
    (h : env.field_create_fails = true) :
    create_text_or_number_field env name owner_id field_type is_strict
      range_min range_max s = (.error .fieldAlreadyExist, s) ∧
    create_text_area env name owner_id field_type s =
      (.error .fieldAlreadyExist, s) ∧
    create_radio_field env name owner_id field_type (o :: rest) is_strict s =
      (.error .fieldAlreadyExist, s) ∧
    create_checkbox_field env name owner_id field_type (o :: rest) is_strict
      range_min range_max s = (.error .attributeError, s) ∧
    create_autocomplete_field env name owner_id field_type data_url sheet
      from_row to_row is_strict s = (.error .fieldNotExist, s) := by
  refine ⟨?_, ?_, ?_, ?_, ?_⟩ <;>
    simp [create_text_or_number_field, create_text_or_number_field_body,
      create_text_area, create_text_area_body, create_radio_field,
      create_radio_field_body, create_checkbox_field,
      create_checkbox_field_body, create_autocomplete_field,
      create_autocomplete_field_body, transaction, FieldService.create, h]

/-- Witness for claim C1 (amended) at a concrete faulting environment. -/
theorem claim_c1_witness :
    envCreateFail.field_create_fails = true ∧
    create_radio_field envCreateFail "x" 1 FieldType.Radio ["a"] false
      emptyState = (.error .fieldAlreadyExist, emptyState) ∧
    create_autocomplete_field envCreateFail "x" 1 FieldType.Autocomplete "u"
      "sh" "A1" "C5" false emptyState = (.error .fieldNotExist, emptyState) :=
  ⟨rfl,
    (claim_c1_create_failure_error_kinds envCreateFail "x" 1
      FieldType.Radio false none none "a" [] "u" "sh" "A1" "C5" emptyState
      rfl).2.2.1,
    (claim_c1_create_failure_error_kinds envCreateFail "x" 1
      FieldType.Autocomplete false none none "a" [] "u" "sh" "A1" "C5"
      emptyState rfl).2.2.2.2⟩

/-- Counterexample for claim C1 as stated: with a faulting base create, the
autocomplete variant yields `FieldNotExist` and the checkbox variant
yields the unguarded-crash marker — neither is `FieldAlreadyExist`. -/
theorem claim_c1_counterexample :
    (create_autocomplete_field envCreateFail "n" 1 FieldType.Autocomplete "u"
      "sh" "A1" "C5" false emptyState).1 = .error .fieldNotExist ∧
    (create_checkbox_field envCreateFail "n" 1 FieldType.Checkbox ["a"] false
      none none emptyState).1 = .error .attributeError ∧
    Err.fieldNotExist ≠ Err.fieldAlreadyExist ∧
    Err.attributeError ≠ Err.fieldAlreadyExist :=
  ⟨rfl, rfl, by decide, by decide⟩

/-- Replacing the `fields` table leaves the range-link lookup unchanged. -/
theorem get_by_field_id_set_fields (field_id : Nat) (s : DBState)
    (X : List FieldRow) :
    FieldRangeService.get_by_field_id field_id { s with fields := X } =
      FieldRangeService.get_by_field_id field_id s := rfl

/-- Replacing the `fields` table leaves the option lookup unchanged. -/
theorem get_by_field_and_text_set_fields (field_id : Nat) (o : String)
    (s : DBState) (X : List FieldRow) :
    ChoiceOptionService.get_by_field_and_text field_id o { s with fields := X } =
      ChoiceOptionService.get_by_field_and_text field_id o s := rfl

/-- Inversion of a successful base-field update: the returned row keeps
the looked-up id and only the `fields` table changes. -/
theorem field_update_inv (field_id : Nat) (name : Option String)
    (owner_id : Option Nat) (field_type : Option Nat) (is_strict : Option Bool)
    (s : DBState) (f : FieldRow) (s' : DBState)
    (h : FieldService.update field_id name owner_id field_type is_strict s =
      .ok (f, s')) :
    f.id = field_id ∧ s'.ranges = s.ranges ∧
    s'.field_ranges = s.field_ranges ∧ s'.choice_options = s.choice_options := by
  unfold FieldService.update at h
  cases hg : FieldService.get_by_id field_id s with
  | none => rw [hg] at h; simp at h
  | some inst =>
    rw [hg] at h
    simp only [Except.ok.injEq, Prod.mk.injEq] at h
    obtain ⟨hf, hs⟩ := h
    subst hs
    subst hf
    refine ⟨?_, rfl, rfl, rfl⟩
    have h1 : s.fields.find? (fun x => x.id == field_id) = some inst := hg
    have hp := List.find?_some h1
    simpa using hp

/-- Option-row creation leaves the `ranges` table unchanged. -/
theorem choice_create_ranges (env : Env) (field_id : Nat) (o : String)
    (s : DBState) :
    ((ChoiceOptionService.create env field_id o s).2).ranges = s.ranges := by
  unfold ChoiceOptionService.create; split <;> rfl

/-- Option-row creation leaves the `field_ranges` table unchanged. -/
theorem choice_create_field_ranges (env : Env) (field_id : Nat) (o : String)
    (s : DBState) :
    ((ChoiceOptionService.create env field_id o s).2).field_ranges =
      s.field_ranges := by
  unfold ChoiceOptionService.create; split <;> rfl

/-- Option-row deletion leaves the `ranges` table unchanged. -/
theorem choice_delete_ranges (env : Env) (option_id : Nat) (s : DBState) :
    ((ChoiceOptionService.delete env option_id s).2).ranges = s.ranges := by
  unfold ChoiceOptionService.delete
  split
  · rfl
  · split <;> rfl

/-- Option-row deletion leaves the `field_ranges` table unchanged. -/
theorem choice_delete_field_ranges (env : Env) (option_id : Nat) (s : DBState) :
    ((ChoiceOptionService.delete env option_id s).2).field_ranges =
      s.field_ranges := by
  unfold ChoiceOptionService.delete
  split
  · rfl
  · split <;> rfl

/-- A successful add-options loop leaves `ranges` and `field_ranges`
unchanged. -/
theorem add_options_loop_frame (env : Env) (field_id : Nat) :
    ∀ (opts : List String) (s s' : DBState),
      add_options_loop env field_id opts s = .ok s' →
      s'.ranges = s.ranges ∧ s'.field_ranges = s.field_ranges := by
  intro opts
  induction opts with
  | nil =>
    intro s s' h
    simp only [add_options_loop, Except.ok.injEq] at h
    subst h; exact ⟨rfl, rfl⟩
  | cons o rest ih =>
    intro s s' h
    unfold add_options_loop at h
    rcases hcr : ChoiceOptionService.create env field_id o s with ⟨ores, s1⟩
    rw [hcr] at h
    cases ores with
    | none => simp at h
    | some row =>
      have hframe := ih s1 s' h
      have hr : s1.ranges = s.ranges := by
        have := choice_create_ranges env field_id o s
        rw [hcr] at this; exact this
      have hfr : s1.field_ranges = s.field_ranges := by
        have := choice_create_field_ranges env field_id o s
        rw [hcr] at this; exact this
      exact ⟨hframe.1.trans hr, hframe.2.trans hfr⟩

/-- A successful remove-options loop leaves `ranges` and `field_ranges`
unchanged. -/
theorem remove_options_loop_frame (env : Env) (field_id : Nat) :
    ∀ (opts : List String) (s s' : DBState),
      remove_options_loop env field_id opts s = .ok s' →
      s'.ranges = s.ranges ∧ s'.field_ranges = s.field_ranges := by
  intro opts
  induction opts with
  | nil =>
    intro s s' h
    simp only [remove_options_loop, Except.ok.injEq] at h
    subst h; exact ⟨rfl, rfl⟩
  | cons o rest ih =>
    intro s s' h
    unfold remove_options_loop at h
    split at h
    · simp at h
    · rename_i opt hlk
      split at h
      · simp at h
      · rename_i b s1 hdl
        have hframe := ih s1 s' h
        have hr : s1.ranges = s.ranges := by
          have h2 := choice_delete_ranges env opt.id s
          rw [hdl] at h2; exact h2
        have hfr : s1.field_ranges = s.field_ranges := by
          have h2 := choice_delete_field_ranges env opt.id s
          rw [hdl] at h2; exact h2
        exact ⟨hframe.1.trans hr, hframe.2.trans hfr⟩

/-- With `delete_range` false and no bounds supplied the range branch does
nothing. -/
theorem update_range_branch_no_bounds (env : Env) (field_id : Nat)
    (field_range : Option FieldRangeRow) (s : DBState) :
    update_range_branch env field_id none none false field_range s = .ok s := by
  simp [update_range_branch]

/-- A successful merge step never changes the store. -/
theorem merge_additional_options_state (data : ViewData)
    (field_id field_type : Nat) (s : DBState) (v : ViewData) (s' : DBState)
    (h : merge_additional_options data field_id field_type s = .ok (v, s')) :
    s' = s := by
  unfold merge_additional_options at h
  split at h
  · simp at h
  · simp at h
  · simp only [Except.ok.injEq, Prod.mk.injEq] at h
    exact h.2.symm

/-- A successful text-or-number update with no bounds and no delete request
leaves `ranges` and `field_ranges` unchanged. -/
theorem update_tn_body_frame (env : Env) (field_id : Nat) (name : Option String)
    (is_strict : Option Bool) (s : DBState) (v : ViewData) (s' : DBState)
    (h : update_text_or_number_field_body env field_id name none none false
      is_strict s = .ok (v, s')) :
    s'.ranges = s.ranges ∧ s'.field_ranges = s.field_ranges := by
  unfold update_text_or_number_field_body at h
  split at h
  · simp at h
  · rename_i field s1 hupd
    simp only [update_range_branch_no_bounds] at h
    have hs := merge_additional_options_state _ _ _ _ _ _ h
    have hf := field_update_inv _ _ _ _ _ _ _ _ hupd
    subst hs
    exact ⟨hf.2.1, hf.2.2.1⟩

/-- A successful checkbox update with no bounds and no delete request
leaves `ranges` and `field_ranges` unchanged. -/
theorem update_cb_body_frame (env : Env) (field_id : Nat) (name : Option String)
    (added removed : List String) (s : DBState) (v : ViewData) (s' : DBState)
    (h : update_checkbox_field_body env field_id name none none false added
      removed s = .ok (v, s')) :
    s'.ranges = s.ranges ∧ s'.field_ranges = s.field_ranges := by
  unfold update_checkbox_field_body at h
  split at h
  · simp at h
  · rename_i field s1 hupd
    simp only [update_range_branch_no_bounds] at h
    split at h
    · simp at h
    · rename_i s2 hadd
      split at h
      · simp at h
      · rename_i s3 hrem
        have hs := merge_additional_options_state _ _ _ _ _ _ h
        have hf := field_update_inv _ _ _ _ _ _ _ _ hupd
        have ha := add_options_loop_frame env field.id added s1 s2 hadd
        have hr := remove_options_loop_frame env field.id removed s2 s3 hrem
        subst hs
        constructor
        · exact (hr.1.trans ha.1).trans hf.2.1
        · exact (hr.2.trans ha.2).trans hf.2.2.1

/-- Claim C7: an update call with `delete_range` false and neither bound
supplied leaves the Field-Range link table and the Range table exactly as
they were — no Range row is created and no link is updated or deleted —
for `update_text_or_number_field` and for the range branch of
`update_checkbox_field`, on every store and every outcome. -/
theorem claim_c7_no_bounds_range_untouched (env : Env) (field_id : Nat)
    (name : Option String) (is_strict : Option Bool)
    (added removed : List String) (s : DBState) :
    ((update_text_or_number_field env field_id name none none false is_strict
        s).2.ranges = s.ranges ∧
      (update_text_or_number_field env field_id name none none false is_strict
        s).2.field_ranges = s.field_ranges) ∧
    ((update_checkbox_field env field_id name none none false added removed
        s).2.ranges = s.ranges ∧
      (update_checkbox_field env field_id name none none false added removed
        s).2.field_ranges = s.field_ranges) := by
  constructor
  · cases hb : update_text_or_number_field_body env field_id name none none
        false is_strict s with
    | error e => simp [update_text_or_number_field, transaction, hb]
    | ok p =>
      obtain ⟨v, s'⟩ := p
      have hf := update_tn_body_frame env field_id name is_strict s v s' hb
      simp [update_text_or_number_field, transaction, hb, hf.1, hf.2]
  · cases hb : update_checkbox_field_body env field_id name none none false
        added removed s with
    | error e => simp [update_checkbox_field, transaction, hb]
    | ok p =>
      obtain ⟨v, s'⟩ := p
      have hf := update_cb_body_frame env field_id name added removed s v s' hb
      simp [update_checkbox_field, transaction, hb, hf.1, hf.2]

/-- Claim C3: an update with `delete_range` true on a field that has no
Field-Range link raises `FieldRangeNotDeleted` and leaves the whole store
unchanged — the enclosing transaction rolls back, including the base-field
name/strictness update performed earlier in the call — both for
`update_text_or_number_field` and for `update_checkbox_field`. -/
theorem claim_c3_delete_range_missing_link (env : Env) (s : DBState)
    (field_id : Nat) (f : FieldRow) (name : Option String)
    (is_strict : Option Bool) (range_min range_max : Option Int)
    (added removed : List String)
    (h1 : FieldService.get_by_id field_id s = some f)
    (h2 : FieldRangeService.get_by_field_id field_id s = none) :
    update_text_or_number_field env field_id name range_min range_max true
      is_strict s = (.error .fieldRangeNotDeleted, s) ∧
    update_checkbox_field env field_id name range_max range_min true added
      removed s = (.error .fieldRangeNotDeleted, s) := by
  have h1' : s.fields.find? (fun x => x.id == field_id) = some f := h1
  have hid : f.id = field_id := by simpa using List.find?_some h1'
  simp only [FieldRangeService.get_by_field_id] at h2
  constructor
  · simp [update_text_or_number_field, transaction,
      update_text_or_number_field_body, FieldService.update, h1,
      FieldRangeService.get_by_field_id, h2, update_range_branch]
  · simp [update_checkbox_field, transaction, update_checkbox_field_body,
      FieldService.update, h1, hid, FieldRangeService.get_by_field_id, h2,
      update_range_branch]

/-- Witness for claim C3: a store with one Text field and no range link. -/
theorem claim_c3_witness :
    update_text_or_number_field envOk 1 none none none true none textState =
      (.error .fieldRangeNotDeleted, textState) :=
  (claim_c3_delete_range_missing_link envOk textState 1 textRow none none
    none none [] [] rfl rfl).1

/-- Claim C5 (amended): during `update_radio_field` and
`update_checkbox_field`, each option in `removed_choice_options` is looked
up by (field id, option text) and deleted by id; when the deletion call
reports failure the operation fails with `ChoiceOptionNotDeleted`, but
when the lookup itself fails the source dereferences the `None` result
unguarded, which is a crash (`attributeError`), not
`ChoiceOptionNotDeleted`.  Either way the transaction rolls the store
back. -/
theorem claim_c5_remove_option_failures (env : Env) (s : DBState)
    (field_id : Nat) (f : FieldRow) (name : Option String) (o : String)
    (rest : List String)
    (h1 : FieldService.get_by_id field_id s = some f) :
    (ChoiceOptionService.get_by_field_and_text field_id o s = none →
      update_radio_field env field_id name [] (o :: rest) s =
        (.error .attributeError, s) ∧
      update_checkbox_field env field_id name none none false [] (o :: rest)
        s = (.error .attributeError, s)) ∧
    (env.option_delete_fails = true →
      (∃ opt, ChoiceOptionService.get_by_field_and_text field_id o s =
        some opt) →
      update_radio_field env field_id name [] (o :: rest) s =
        (.error .choiceOptionNotDeleted, s) ∧
      update_checkbox_field env field_id name none none false [] (o :: rest)
        s = (.error .choiceOptionNotDeleted, s)) := by
  have h1' : s.fields.find? (fun x => x.id == field_id) = some f := h1
  have hid : f.id = field_id := by simpa using List.find?_some h1'
  constructor
  · intro hlk
    simp only [ChoiceOptionService.get_by_field_and_text] at hlk
    constructor
    · simp [update_radio_field, transaction, update_radio_field_body,
        FieldService.update, h1, hid, add_options_loop, remove_options_loop,
        ChoiceOptionService.get_by_field_and_text, hlk]
    · simp [update_checkbox_field, transaction, update_checkbox_field_body,
        FieldService.update, h1, hid, update_range_branch_no_bounds,
        add_options_loop, remove_options_loop,
        ChoiceOptionService.get_by_field_and_text, hlk]
  · rintro hdel ⟨opt, hlk⟩
    simp only [ChoiceOptionService.get_by_field_and_text] at hlk
    constructor
    · simp [update_radio_field, transaction, update_radio_field_body,
        FieldService.update, h1, hid, add_options_loop, remove_options_loop,
        ChoiceOptionService.get_by_field_and_text, hlk,
        ChoiceOptionService.delete, hdel]
    · simp [update_checkbox_field, transaction, update_checkbox_field_body,
        FieldService.update, h1, hid, update_range_branch_no_bounds,
        add_options_loop, remove_options_loop,
        ChoiceOptionService.get_by_field_and_text, hlk,
        ChoiceOptionService.delete, hdel]

/-- Witness for claim C5 (amended): deleting option "a" of the checkbox
fixture under a faulting delete store yields `ChoiceOptionNotDeleted`. -/
theorem claim_c5_witness :
    update_checkbox_field { option_delete_fails := true } 1 none none none
      false [] ["a"] checkboxState =
      (.error .choiceOptionNotDeleted, checkboxState) :=
  ((claim_c5_remove_option_failures { option_delete_fails := true }
    checkboxState 1 checkboxRow none "a" [] rfl).2 rfl
    ⟨checkboxOptionRow, rfl⟩).2

/-- Counterexample for claim C5 as stated: removing an option whose lookup
fails (the radio fixture has no option rows) ends in the unguarded-crash
marker `attributeError`, not in `ChoiceOptionNotDeleted`. -/
theorem claim_c5_counterexample :
    (update_radio_field envOk 1 none [] ["x"] radioState).1 =
      .error .attributeError ∧
    Err.attributeError ≠ Err.choiceOptionNotDeleted :=
  ⟨rfl, by decide⟩

/-- Claim C6: creating a radio or checkbox field from a non-empty option
list (with no bounds supplied for the checkbox) succeeds whenever the base
create succeeds, and the returned view's `choiceOptions` equals the input
list in input order while the `range` key is absent. -/
theorem claim_c6_choice_options_preserved (env : Env) (name : String)
    (owner_id field_type : Nat) (o : String) (rest : List String)
    (is_strict : Bool) (s : DBState)
    (h : env.field_create_fails = false) :
    (∃ v, (create_radio_field env name owner_id field_type (o :: rest)
        is_strict s).1 = .ok v ∧
      v.choiceOptions = some (o :: rest) ∧ v.range = none) ∧
    (∃ v, (create_checkbox_field env name owner_id field_type (o :: rest)
        is_strict none none s).1 = .ok v ∧
      v.choiceOptions = some (o :: rest) ∧ v.range = none) := by
  constructor
  · cases hres : (create_radio_field env name owner_id field_type (o :: rest)
        is_strict s).1 with
    | error e =>
      exfalso
      simp [create_radio_field, transaction, create_radio_field_body,
        FieldService.create, h] at hres
    | ok v =>
      have heq := hres
      simp only [create_radio_field, transaction, create_radio_field_body,
        FieldService.create, h, Bool.false_eq_true, if_false, reduceCtorEq,
        ite_false, Except.ok.injEq] at heq
      refine ⟨v, rfl, ?_, ?_⟩ <;> subst heq <;>
        simp [append_options_loop_fst, radio_dump, base_dump]
  · cases hres : (create_checkbox_field env name owner_id field_type
        (o :: rest) is_strict none none s).1 with
    | error e =>
      exfalso
      simp [create_checkbox_field, transaction, create_checkbox_field_body,
        FieldService.create, h] at hres
    | ok v =>
      have heq := hres
      simp only [create_checkbox_field, transaction,
        create_checkbox_field_body, FieldService.create, h,
        Bool.false_eq_true, if_false, reduceCtorEq, ite_false,
        Except.ok.injEq] at heq
      refine ⟨v, rfl, ?_, ?_⟩ <;> subst heq <;>
        simp [append_options_loop_fst, radio_dump, base_dump]

/-- Witness for claim C6 at the spec's create-radio scenario. -/
theorem claim_c6_witness :
    ∃ v, (create_radio_field envOk "color" 1 FieldType.Radio
      ["red", "green", "blue"] false emptyState).1 = .ok v ∧
      v.choiceOptions = some ["red", "green", "blue"] ∧ v.range = none :=
  (claim_c6_choice_options_preserved envOk "color" 1 FieldType.Radio "red"
    ["green", "blue"] false emptyState rfl).1
